import Mathlib

/-!
Shallow embedding of the KUKA VarProxy client (`kuka_c3_bridge_client.py`)
and the remote-controller command layer (`kuka_remote_controller.py`).

Conventions of the embedding:
* Python `bytes` on the wire are `List Nat` (each element a byte value).
* Decoded text (`str`) is `List Char`; `"...".data` denotes the character
  list of a literal.  UTF-8 decode of ASCII payloads is the identity and is
  not modelled separately.
* Python numbers parsed/formatted by the controller layer are modelled as
  `ℚ`; every concrete value appearing in the development is exactly
  representable as a binary float, so rational arithmetic agrees with the
  CPython float behaviour on those inputs.
* A Python function that may raise is embedded with an `Option`/`Except`
  layer whose `none`/`error` value marks the raised exception.
-/

/- Batteries marks the core `Rat` arithmetic irreducible; restore
definitional reducibility so concrete rational computations in this
development can be settled by `decide`. -/
set_option allowUnsafeReducibility true in
attribute [semireducible] Rat.add Rat.mul Rat.sub Rat.div Rat.inv Rat.neg
  Rat.blt

/-- Big-endian 16-bit value from two bytes (struct format `H`, `!` order). -/
def u16be (a b : Nat) : Nat := a * 256 + b

/-- The two big-endian bytes of a 16-bit value (struct `pack` of an `H`). -/
def u16beBytes (n : Nat) : List Nat := [n / 256, n % 256]

/-- Fields produced by `struct.unpack("!HHBH" + str(n) + "s" + "H?", rsp)` in
`C3BridgeClient._read_rsp`. -/
structure RspFields where
  msg_id : Nat
  body_len : Nat
  msg_type : Nat
  value_len : Nat
  value : List Nat
  error_code : Nat
  isok : Bool
deriving DecidableEq

/-- Embedding of the response decode in `C3BridgeClient._read_rsp`
(`kuka_c3_bridge_client.py` lines 114-116).  The value length is derived as
`len(rsp) - calcsize("!HHBH") - 3 = len(rsp) - 10`; when the payload is
shorter than the 10 fixed bytes, `struct.unpack` raises (`none` here).
Field offsets follow the format string `!HHBH{n}sH?`. -/
def unpackRsp (p : List Nat) : Option RspFields :=
  if 10 ≤ p.length then
    let n := p.length - 10
    some { msg_id := u16be (p.getD 0 0) (p.getD 1 0)
         , body_len := u16be (p.getD 2 0) (p.getD 3 0)
         , msg_type := p.getD 4 0
         , value_len := u16be (p.getD 5 0) (p.getD 6 0)
         , value := (p.drop 7).take n
         , error_code := u16be (p.getD (7 + n) 0) (p.getD (8 + n) 0)
         , isok := p.getD (9 + n) 0 != 0 }
  else none

/-- Embedding of `C3BridgeClient._read_rsp` (lines 111-122).  Input: the
current `self.msg_id` and the received payload (`self.rsp`, `none` when no
bytes were received).  Output: `none` models a raised `struct.error`;
`some (v?, newId)` models a normal return with result `v?` and the updated
sequence counter.  The counter advances by `+1 mod 65536` exactly on the
`isok ∧ msg_id match` branch. -/
def read_rsp (msgId : Nat) (rsp : Option (List Nat)) :
    Option (Option (List Nat) × Nat) :=
  match rsp with
  | none => some (none, msgId)
  | some p =>
    match unpackRsp p with
    | none => none
    | some f =>
      if f.isok = true ∧ f.msg_id = msgId then
        some (some f.value, (msgId + 1) % 65536)
      else
        some (none, msgId)

/-- Embedding of `C3BridgeClient._pack_read_req` (lines 80-92):
`struct.pack("!HHBH" + str(n) + "s", msg_id, req_len, 0, n, name)` with
`req_len = n + 3`.  `struct.pack` raises (`none`) when any `H` field is
out of the 0..65535 range. -/
def pack_read_req (seq : Nat) (name : List Nat) : Option (List Nat) :=
  let nlen := name.length
  let reqLen := nlen + 3
  if seq ≤ 65535 ∧ reqLen ≤ 65535 ∧ nlen ≤ 65535 then
    some (u16beBytes seq ++ u16beBytes reqLen ++ [0] ++ u16beBytes nlen ++ name)
  else none

/-- Embedding of `C3BridgeClient._pack_write_req` (lines 94-109):
`req_len = n + 3 + 2 + vlen`, format `!HHBH{n}sH{vlen}s`, flag byte 1. -/
def pack_write_req (seq : Nat) (name value : List Nat) : Option (List Nat) :=
  let nlen := name.length
  let vlen := value.length
  let reqLen := nlen + 3 + 2 + vlen
  if seq ≤ 65535 ∧ reqLen ≤ 65535 ∧ nlen ≤ 65535 ∧ vlen ≤ 65535 then
    some (u16beBytes seq ++ u16beBytes reqLen ++ [1] ++ u16beBytes nlen ++ name
          ++ u16beBytes vlen ++ value)
  else none

/-- The read-request wire layout as the specification states it:
`seq:u16 | body_len:u16 | flag:u8=0 | name_len:u16 | name`, with
`body_len = name_len + 3`. -/
def readReqLayout (seq : Nat) (name : List Nat) : List Nat :=
  u16beBytes seq ++ u16beBytes (name.length + 3) ++ [0]
    ++ u16beBytes name.length ++ name

/-- The write-request wire layout as the specification states it:
`seq:u16 | body_len:u16 | flag:u8=1 | name_len:u16 | name | value_len:u16 |
value`, with `body_len = name_len + 5 + value_len`. -/
def writeReqLayout (seq : Nat) (name value : List Nat) : List Nat :=
  u16beBytes seq ++ u16beBytes (name.length + 5 + value.length) ++ [1]
    ++ u16beBytes name.length ++ name ++ u16beBytes value.length ++ value

/-! ## Controller layer: regex number extraction

`KUKARemoteController.__init__` compiles the pattern `\W(-?[\d\.]+)\W`
(line 31) and the getters call `pattern.findall(text)`.  The functions below
embed Python `re.findall` semantics for exactly this pattern over ASCII
text: scan left to right; at each position try to match one non-word
character, then the greedy group `-?[\d\.]+` (with backtracking against the
trailing context), then one more non-word character; on success record the
group and resume after the whole match, otherwise advance one character. -/

/-- Python `\w` for ASCII text: letters, digits, underscore. -/
def isWordChar (c : Char) : Bool := c.isAlphanum || c == '_'

/-- Characters matched by the character class `[\d\.]`. -/
def isNumChar (c : Char) : Bool := c.isDigit || c == '.'

/-- Backtracking of the greedy `[\d\.]+`: the largest `k` not above the
given bound, with `k ≥ 1`, such that the character of `cs` at position `k`
exists and is non-word (so the trailing `\W` can match). -/
def descendRun (cs : List Char) : Nat → Option Nat
  | 0 => none
  | k + 1 =>
    match cs.drop (k + 1) with
    | c :: _ => if isWordChar c then descendRun cs k else some (k + 1)
    | [] => descendRun cs k

/-- Match the group `-?[\d\.]+` at the head of `cs`, with the trailing-`\W`
constraint folded in.  Returns the group characters and the remaining
input, whose head is the (still unconsumed) trailing non-word character. -/
def matchBody (cs : List Char) : Option (List Char × List Char) :=
  match cs with
  | '-' :: rest =>
    match descendRun rest (rest.takeWhile isNumChar).length with
    | some k => some ('-' :: rest.take k, rest.drop k)
    | none => none
  | _ =>
    match descendRun cs (cs.takeWhile isNumChar).length with
    | some k => some (cs.take k, cs.drop k)
    | none => none

/-- Match the full pattern `\W(-?[\d\.]+)\W` at the head of `cs`.  Returns
the captured group and the input remaining after the whole match. -/
def matchAt (cs : List Char) : Option (List Char × List Char) :=
  match cs with
  | [] => none
  | c :: rest =>
    if isWordChar c then none
    else
      match matchBody rest with
      | some (g, after) =>
        match after with
        | _ :: after2 => some (g, after2)
        | [] => none
      | none => none

/-- Scanning loop of `findall`: try a match at every position, resuming
after each successful match.  `fuel` bounds the recursion; every step
consumes at least one character, so `fuel = cs.length` is exact. -/
def findAllAux : Nat → List Char → List (List Char)
  | 0, _ => []
  | fuel + 1, cs =>
    match matchAt cs with
    | some (g, after) => g :: findAllAux fuel after
    | none =>
      match cs with
      | [] => []
      | _ :: rest => findAllAux fuel rest

/-- `pattern_reply_numbers.findall(text)`: all captured number strings. -/
def findNumbers (cs : List Char) : List (List Char) := findAllAux cs.length cs

/-! ## Number conversion (Python `float(...)` / `int(...)` on the captured
strings) and fixed-point formatting (`f"{v:.3f}"` / `f"{v:.4f}"`). -/

/-- Decimal value of a digit string. -/
def digitsVal (l : List Char) : Nat :=
  l.foldl (fun a c => a * 10 + (c.toNat - 48)) 0

/-- Unsigned part of Python `float(s)` on strings drawn from `-?[\d\.]+`:
digits, optionally followed by one dot and digits; at least one digit in
total; a second dot (or any other leftover) raises `ValueError` (`none`). -/
def parseRatCore (cs : List Char) : Option ℚ :=
  let ip := cs.takeWhile Char.isDigit
  let rest := cs.dropWhile Char.isDigit
  match rest with
  | [] => if ip.isEmpty then none else some ((digitsVal ip : ℚ))
  | '.' :: fr =>
    if fr.all Char.isDigit && (!ip.isEmpty || !fr.isEmpty) then
      some ((digitsVal ip : ℚ) + (digitsVal fr : ℚ) / ((10 ^ fr.length : Nat) : ℚ))
    else none
  | _ => none

/-- Python `float(s)` restricted to the shapes the regex can capture;
exact over `ℚ` (all concrete values in this development are dyadic, where
CPython's binary `float` is also exact). -/
def parseRat (cs : List Char) : Option ℚ :=
  match cs with
  | '-' :: r => (parseRatCore r).map (fun x => -x)
  | _ => parseRatCore cs

/-- Python `int(s)`: optional sign then one or more digits. -/
def parseInt (cs : List Char) : Option ℤ :=
  match cs with
  | '-' :: r =>
    if !r.isEmpty && r.all Char.isDigit then some (-(digitsVal r : ℤ)) else none
  | _ =>
    if !cs.isEmpty && cs.all Char.isDigit then some ((digitsVal cs : ℤ)) else none

/-- Floor of a rational (denominator is positive, so Euclidean division of
the numerator is the floor). -/
def qfloor (q : ℚ) : ℤ := Int.ediv q.num q.den

/-- Round half to even, the rounding CPython applies when formatting a
value with `%.Nf`.  (A binary float is never an exact tie at 3 or 4
decimals, so the tie branch is unreachable on float-representable inputs;
it is included for totality.) -/
def rhe (q : ℚ) : ℤ :=
  let f := qfloor q
  let r := q - (f : ℚ)
  if r < 1 / 2 then f
  else if 1 / 2 < r then f + 1
  else if f % 2 = 0 then f else f + 1

/-- Fixed-point formatting `f"{v:.df}"` with `d ≥ 1` decimals: round the
scaled value, pad to at least `d + 1` digits, insert the point, prepend the
sign for negative inputs. -/
def fmtFixed (d : Nat) (v : ℚ) : List Char :=
  let n : ℤ := rhe (v * ((10 ^ d : Nat) : ℚ))
  let ds := Nat.toDigits 10 n.natAbs
  let ds := if ds.length ≤ d then List.replicate (d + 1 - ds.length) '0' ++ ds else ds
  let sign : List Char := if v < 0 then ['-'] else []
  sign ++ ds.take (ds.length - d) ++ ['.'] ++ ds.drop (ds.length - d)

/-! ## Text formatters of `KUKARemoteController` -/

/-- Python `", ".join(fields)`. -/
def joinComma : List (List Char) → List Char
  | [] => []
  | [f] => f
  | f :: fs => f ++ [',', ' '] ++ joinComma fs

/-- The labels zipped in `pose_to_str`: the characters of `"XYZABC"`. -/
def poseLabels : List Char := ['X', 'Y', 'Z', 'A', 'B', 'C']

/-- The fields of `pose_to_str`: `f"{n} {v:.4f}"` for each label/value pair
of `zip("XYZABC", xyzrpy[:6])`. -/
def poseFields (xyzrpy : List ℚ) : List (List Char) :=
  List.zipWith (fun n v => [n, ' '] ++ fmtFixed 4 v) poseLabels (xyzrpy.take 6)

/-- Embedding of `KUKARemoteController.pose_to_str` (lines 195-197). -/
def pose_to_str (xyzrpy : List ℚ) : List Char := joinComma (poseFields xyzrpy)

/-- Embedding of `KUKARemoteController.joints_to_str` (lines 199-226): a
chain of twelve guarded appends, one per possible axis field. -/
def joints_to_str (q : List ℚ) : List Char :=
  let s0 : List Char := []
  let s1 := if 1 ≤ q.length then s0 ++ (['A', '1', ' '] ++ fmtFixed 3 (q.getD 0 0)) else s0
  let s2 := if 2 ≤ q.length then s1 ++ ([',', ' ', 'A', '2', ' '] ++ fmtFixed 3 (q.getD 1 0)) else s1
  let s3 := if 3 ≤ q.length then s2 ++ ([',', ' ', 'A', '3', ' '] ++ fmtFixed 3 (q.getD 2 0)) else s2
  let s4 := if 4 ≤ q.length then s3 ++ ([',', ' ', 'A', '4', ' '] ++ fmtFixed 3 (q.getD 3 0)) else s3
  let s5 := if 5 ≤ q.length then s4 ++ ([',', ' ', 'A', '5', ' '] ++ fmtFixed 3 (q.getD 4 0)) else s4
  let s6 := if 6 ≤ q.length then s5 ++ ([',', ' ', 'A', '6', ' '] ++ fmtFixed 3 (q.getD 5 0)) else s5
  let s7 := if 7 ≤ q.length then s6 ++ ([',', ' ', 'E', '1', ' '] ++ fmtFixed 3 (q.getD 6 0)) else s6
  let s8 := if 8 ≤ q.length then s7 ++ ([',', ' ', 'E', '2', ' '] ++ fmtFixed 3 (q.getD 7 0)) else s7
  let s9 := if 9 ≤ q.length then s8 ++ ([',', ' ', 'E', '3', ' '] ++ fmtFixed 3 (q.getD 8 0)) else s8
  let s10 := if 10 ≤ q.length then s9 ++ ([',', ' ', 'E', '4', ' '] ++ fmtFixed 3 (q.getD 9 0)) else s9
  let s11 := if 11 ≤ q.length then s10 ++ ([',', ' ', 'E', '5', ' '] ++ fmtFixed 3 (q.getD 10 0)) else s10
  let s12 := if 12 ≤ q.length then s11 ++ ([',', ' ', 'E', '6', ' '] ++ fmtFixed 3 (q.getD 11 0)) else s11
  s12

/-- The axis labels `A1..A6` then `E1..E6`. -/
def jointLabels : List (List Char) :=
  [['A', '1'], ['A', '2'], ['A', '3'], ['A', '4'], ['A', '5'], ['A', '6'],
   ['E', '1'], ['E', '2'], ['E', '3'], ['E', '4'], ['E', '5'], ['E', '6']]

/-- One labelled joint field, `LABEL value` with 3-decimal formatting. -/
def labelField3 (l : List Char) (v : ℚ) : List Char := l ++ [' '] ++ fmtFixed 3 v

/-- The labelled fields `joints_to_str` should emit: one per element of the
input (truncated at 12), labels taken in order. -/
def jointFields (q : List ℚ) : List (List Char) :=
  List.zipWith labelField3 jointLabels (q.take 12)

/-! ## Controller operations -/

/-- Embedding of `KUKARemoteController.get_pose` (lines 61-75).  Input: the
reply of `c3client.read("$POS_ACT_MES")` as decoded text (`none` when the
read returned `None`).  Outer `none` models a raised exception
(`IndexError` on `numbers[6]`/`numbers[7]`, or `ValueError` from a
conversion); `some none` models the fall-through `return None` taken when
the reply is falsy; `some (some xyzrpy)` is the normal return of the first
six parsed numbers.  The function also converts `numbers[6]`, `numbers[7]`
to `int` and the numbers from index 8 on to `float` (for a debug log), so
those conversions can raise even though their results are discarded. -/
def get_pose (reply : Option (List Char)) : Option (Option (List ℚ)) :=
  match reply with
  | none => some none
  | some txt =>
    if txt.isEmpty then some none
    else
      let numbers := findNumbers txt
      match (numbers.take 6).mapM parseRat with
      | none => none
      | some xyzrpy =>
        match numbers.get? 6, numbers.get? 7 with
        | some n6, some n7 =>
          match parseInt n6, parseInt n7 with
          | some _, some _ =>
            match (numbers.drop 8).mapM parseRat with
            | some _ => some (some xyzrpy)
            | none => none
          | _, _ => none
        | _, _ => none

/-- Embedding of `KUKARemoteController.get_tool` (lines 33-45): parse every
captured number of the reply text; `some none` is the fall-through `None`
on a falsy reply, outer `none` a `ValueError` from `float`. -/
def get_tool (reply : Option (List Char)) : Option (Option (List ℚ)) :=
  match reply with
  | none => some none
  | some txt =>
    if txt.isEmpty then some none
    else
      match (findNumbers txt).mapM parseRat with
      | some l => some (some l)
      | none => none

/-- Embedding of `KUKARemoteController.get_joints` (lines 77-90); same
shape as `get_tool` over the `$AXIS_ACT_MEAS` reply. -/
def get_joints (reply : Option (List Char)) : Option (Option (List ℚ)) :=
  match reply with
  | none => some none
  | some txt =>
    if txt.isEmpty then some none
    else
      match (findNumbers txt).mapM parseRat with
      | some l => some (some l)
      | none => none

/-- Embedding of `KUKARemoteController.get_cartesian_speed` (lines
132-139): `float(v.decode())` with no absent-guard.  `Except.error ()`
models a raised exception: `AttributeError` when the read returned `None`
(`None.decode()`), or `ValueError` when the text is not a number.  The
function has no non-raising failure path. -/
def get_cartesian_speed (reply : Option (List Char)) : Except Unit ℚ :=
  match reply with
  | none => Except.error ()
  | some cs =>
    match parseRat cs with
    | some v => Except.ok v
    | none => Except.error ()

/-- Embedding of `KUKARemoteController.get_joint_speed` (lines 141-149);
identical structure over the `$VEL_AXIS[1]` reply. -/
def get_joint_speed (reply : Option (List Char)) : Except Unit ℚ :=
  match reply with
  | none => Except.error ()
  | some cs =>
    match parseRat cs with
    | some v => Except.ok v
    | none => Except.error ()

/-! ## Ordered variable writes (`__send_vars`) -/

/-- Loop of `KUKARemoteController.__send_vars` (lines 228-243).  `resp i`
is the value the variable client returns for the `i`-th issued
`c3client.write` call (`none` = absent).  The accumulator `res` mirrors the
Python local `res`; the second component of the result counts how many
writes were issued, so "writes after position `i` are never issued" is the
statement that the count is `i + 1`. -/
def send_vars_aux (resp : Nat → Option (List Char)) :
    List (List Char × List Char) → Nat → Option (List Char) → Bool × Nat
  | [], i, res => (res.isSome, i)
  | _ :: rest, i, _ =>
    match resp i with
    | none => (false, i + 1)
    | some v => send_vars_aux resp rest (i + 1) (some v)

/-- `__send_vars(vars)`: iterate over the ordered pairs, abort on the first
absent write result, return `res is not None` at the end. -/
def send_vars (resp : Nat → Option (List Char))
    (vs : List (List Char × List Char)) : Bool × Nat :=
  send_vars_aux resp vs 0 none

/-- The ordered batch built by `set_tool` (lines 47-59). -/
def set_tool_vars (xyzrpy : List ℚ) : List (List Char × List Char) :=
  [("COM_FRAME".data, "\x7bFRAME: ".data ++ pose_to_str xyzrpy ++ "\x7d".data),
   ("COM_ACTION".data, "5".data)]

/-- The ordered batch built by `movej` (lines 92-110). -/
def movej_vars (q : List ℚ) : List (List Char × List Char) :=
  [("COM_E6AXIS".data, "\x7bE6AXIS: ".data ++ joints_to_str q ++ "\x7d".data),
   ("COM_ACTION".data, "2".data)]

/-- The ordered batch built by `movel` (lines 112-130). -/
def movel_vars (xyzrpy : List ℚ) : List (List Char × List Char) :=
  [("COM_E6POS".data, "\x7bE6POS: ".data ++ pose_to_str xyzrpy ++ "\x7d".data),
   ("COM_ACTION".data, "3".data)]

/-- The ordered batch built by `set_cartesian_speed` (lines 151-163). -/
def set_cartesian_speed_vars (v : ℚ) : List (List Char × List Char) :=
  [("COM_VALUE1".data, fmtFixed 4 v), ("COM_ACTION".data, "6".data)]

/-- The ordered batch built by `set_joint_speed` (lines 165-177). -/
def set_joint_speed_vars (v : ℚ) : List (List Char × List Char) :=
  [("COM_VALUE2".data, fmtFixed 4 v), ("COM_ACTION".data, "7".data)]

/-- The ordered batch built by `set_digital_output` (lines 179-193). -/
def set_digital_output_vars (doId : ℤ) (doVal : Bool) :
    List (List Char × List Char) :=
  [("COM_VALUE1".data, (toString doId).data),
   ("COM_VALUE2".data, if doVal then "1".data else "0".data),
   ("COM_ACTION".data, "10".data)]

/-! ## Motion waiter (`__wait_motion`) -/

/-- The `time.sleep(0.1)` interval of the polling loop, in seconds. -/
def sleep_seconds : ℚ := 1 / 10

/-- Loop of `KUKARemoteController.__wait_motion` (lines 245-251).  `reads i`
is the decoded result of the `i`-th `c3client.read("COM_ACTION")` (`none` =
absent, which compares unequal to `b"0"` and keeps looping).  The sleep is
a no-op in the embedding.  `fuel` bounds the number of iterations examined;
the result is the index of the read on which the loop exits, or `none` if
it has not exited within `fuel` reads. -/
def wait_motion_aux (reads : Nat → Option (List Char)) :
    Nat → Nat → Option Nat
  | 0, _ => none
  | fuel + 1, i =>
    if reads i = some ['0'] then some i
    else wait_motion_aux reads fuel (i + 1)

/-- `__wait_motion` observed for `fuel` reads, starting at the first. -/
def wait_motion (reads : Nat → Option (List Char)) (fuel : Nat) : Option Nat :=
  wait_motion_aux reads fuel 0

/-! ## Concrete inputs used by the claims -/

/-- The reply text of the specification's numeric-parsing property. -/
def claimText : List Char :=
  "\x7bE6POS: X 12.5000, Y -3.0000, Z 0.0000, A 0.0000, B 0.0000, C 0.0000\x7d".data

/-- The same reply extended with the `S`/`T` status integers a real
`$POS_ACT_MES` answer carries. -/
def extendedText : List Char :=
  "\x7bE6POS: X 12.5000, Y -3.0000, Z 0.0000, A 0.0000, B 0.0000, C 0.0000, S 6, T 27\x7d".data

/-- A 10-byte response whose declared `body_len` field is 999, inconsistent
with the observed structure (an empty value in a minimal frame): bytes
`seq=1 | body_len=999 | msg_type=0 | value_len=0 | error_code=0 | ok=1`. -/
def malformedRsp : List Nat := [0, 1, 3, 231, 0, 0, 0, 0, 0, 1]

/-- A well-formed minimal response carrying sequence id 65535, `ok = 1` and
an empty value. -/
def wrapRsp : List Nat := [255, 255, 0, 3, 0, 0, 0, 0, 0, 1]

/-! ## Helper lemmas -/

/-- If the writes before position `i` (counting from the `k`-th issued
call) succeed and the one at position `i` returns absent, the loop of
`__send_vars` stops right after issuing it and reports failure. -/
lemma send_vars_aux_abort (resp : Nat → Option (List Char)) :
    ∀ (vs : List (List Char × List Char)) (k i : Nat)
      (acc : Option (List Char)),
      i < vs.length → (∀ j, j < i → (resp (k + j)).isSome = true) →
      resp (k + i) = none →
      send_vars_aux resp vs k acc = (false, k + i + 1) := by
  intro vs
  induction vs with
  | nil => intro k i acc hi _ _; simp at hi
  | cons v rest ih =>
    intro k i acc hi hpre hfail
    cases i with
    | zero =>
      have h0 : resp k = none := by simpa using hfail
      simp [send_vars_aux, h0]
    | succ i =>
      have h0 : (resp k).isSome = true := by simpa using hpre 0 (by omega)
      obtain ⟨w, hw⟩ := Option.isSome_iff_exists.mp h0
      have hrec := ih (k + 1) i (some w) (by simpa using hi)
        (fun j hj => by
          have h := hpre (j + 1) (by omega)
          have he : k + (j + 1) = k + 1 + j := by omega
          rw [he] at h
          exact h)
        (by
          have he : k + (i + 1) = k + 1 + i := by omega
          rw [he] at hfail
          exact hfail)
      have he : k + 1 + i + 1 = k + (i + 1) + 1 := by omega
      simp [send_vars_aux, hw, hrec, he]

/-- `__wait_motion` reaches the first idle read: if the `n`-th read is the
first one equal to `b"0"` at or after the loop position `i`, the loop
exits there. -/
lemma wait_motion_aux_exit (reads : Nat → Option (List Char)) :
    ∀ (fuel i n : Nat), i ≤ n → n < i + fuel →
      reads n = some ['0'] →
      (∀ m, i ≤ m → m < n → reads m ≠ some ['0']) →
      wait_motion_aux reads fuel i = some n := by
  intro fuel
  induction fuel with
  | zero => intro i n h1 h2 _ _; omega
  | succ fuel ih =>
    intro i n h1 h2 hn hmin
    by_cases hin : i = n
    · subst hin; simp [wait_motion_aux, hn]
    · have hlt : i < n := by omega
      have hne : reads i ≠ some ['0'] := hmin i (le_refl i) hlt
      simp [wait_motion_aux, hne]
      exact ih (i + 1) n (by omega) (by omega) hn
        (fun m hm1 hm2 => hmin m (by omega) hm2)

/-- If no read ever returns `b"0"`, `__wait_motion` never exits, for any
number of observed iterations. -/
lemma wait_motion_aux_never (reads : Nat → Option (List Char))
    (h : ∀ n, reads n ≠ some ['0']) :
    ∀ fuel i, wait_motion_aux reads fuel i = none := by
  intro fuel
  induction fuel with
  | zero => intro i; rfl
  | succ fuel ih => intro i; simp [wait_motion_aux, h i, ih]

/-- `joints_to_str` emits exactly the labelled fields of `jointFields`,
joined with `", "`, for every input length. -/
lemma joints_eq (q : List ℚ) :
    joints_to_str q = joinComma (jointFields q) := by
  rcases q with _ | ⟨a1, _ | ⟨a2, _ | ⟨a3, _ | ⟨a4, _ | ⟨a5, _ | ⟨a6, _ | ⟨a7, _ | ⟨a8, _ | ⟨a9, _ | ⟨a10, _ | ⟨a11, _ | ⟨a12, rest⟩⟩⟩⟩⟩⟩⟩⟩⟩⟩⟩⟩ <;>
    simp [joints_to_str, jointFields, jointLabels, labelField3, joinComma,
      List.getD]

/-! ## Claim theorems -/

/-- C1: for every exchange with a decodable response, the client returns
the response's value iff the decoded `ok` flag is true and the decoded
sequence id equals the pending one (otherwise the result is absent), the
counter advances by exactly `+1 mod 65536` on precisely those successes
(wrapping from 65535 to 0), and is left unchanged on every failed or
mismatched exchange. -/
theorem C1_sequence_correlation (s : Nat) (p : List Nat) (f : RspFields)
    (hf : unpackRsp p = some f) :
    (f.isok = true ∧ f.msg_id = s →
      read_rsp s (some p) = some (some f.value, (s + 1) % 65536))
    ∧ (¬(f.isok = true ∧ f.msg_id = s) →
      read_rsp s (some p) = some (none, s))
    ∧ (s = 65535 → f.isok = true → f.msg_id = s →
      read_rsp s (some p) = some (some f.value, 0))
    ∧ read_rsp s none = some (none, s) := by
  refine ⟨fun h => ?_, fun h => ?_, fun h65 hok hid => ?_, rfl⟩
  · simp [read_rsp, hf, h.1, h.2]
  · simp [read_rsp, hf, h]
  · subst h65; simp [read_rsp, hf, hok, hid]

/-- C1 witness: on a concrete response carrying sequence id 65535 with
`ok = 1`, the pending id 65535 gets the (empty) value back and the counter
wraps to 0; a client waiting on id 7 gets no value and keeps id 7. -/
theorem C1_sequence_correlation_witness :
    read_rsp 65535 (some wrapRsp) = some (some [], 0)
    ∧ read_rsp 7 (some wrapRsp) = some (none, 7) :=
  ⟨(C1_sequence_correlation 65535 wrapRsp ⟨65535, 3, 0, 0, [], 0, true⟩
      (by decide)).2.2.1 rfl rfl rfl,
   (C1_sequence_correlation 7 wrapRsp ⟨65535, 3, 0, 0, [], 0, true⟩
      (by decide)).2.1 (by decide)⟩

/-- C2 counterexample: the name of 65533 bytes fits in 16 bits, yet
`_pack_read_req` raises (`struct.error` on the `body_len` field, which is
65536) instead of producing the claimed byte sequence. -/
theorem C2_counterexample :
    pack_read_req 1 (List.replicate 65533 65) = none
    ∧ pack_read_req 1 (List.replicate 65533 65) ≠
        some (readReqLayout 1 (List.replicate 65533 65)) := by
  have hl : (List.replicate 65533 (65 : Nat)).length = 65533 :=
    List.length_replicate 65533 65
  have h : pack_read_req 1 (List.replicate 65533 65) = none := by
    unfold pack_read_req
    rw [if_neg (by rw [hl]; omega)]
  exact ⟨h, fun hc => Option.noConfusion (h.symm.trans hc)⟩

/-- C2 amended: the claimed big-endian layouts hold whenever the derived
`body_len` also fits in 16 bits (`name_len + 3 ≤ 65535` for reads,
`name_len + 5 + value_len ≤ 65535` for writes), not for every name/value
whose own length fits in 16 bits. -/
theorem C2_request_layout :
    (∀ (seq : Nat) (name : List Nat), seq ≤ 65535 →
      name.length + 3 ≤ 65535 →
      pack_read_req seq name = some (readReqLayout seq name))
    ∧ (∀ (seq : Nat) (name value : List Nat), seq ≤ 65535 →
      name.length + 5 + value.length ≤ 65535 →
      pack_write_req seq name value = some (writeReqLayout seq name value)) := by
  constructor
  · intro seq name hs hn
    unfold pack_read_req readReqLayout
    rw [if_pos ⟨hs, by omega, by omega⟩]
  · intro seq name value hs h
    have h1 : name.length + 3 + 2 + value.length
        = name.length + 5 + value.length := by omega
    unfold pack_write_req writeReqLayout
    rw [if_pos ⟨hs, by omega, by omega, by omega⟩, h1]

/-- C2 witness: the layouts on concrete small requests. -/
theorem C2_request_layout_witness :
    pack_read_req 1 [75, 82] = some (readReqLayout 1 [75, 82])
    ∧ pack_write_req 2 [75] [49, 48] = some (writeReqLayout 2 [75] [49, 48]) :=
  ⟨C2_request_layout.1 1 [75, 82] (by decide) (by decide),
   C2_request_layout.2 2 [75] [49, 48] (by decide) (by decide)⟩

/-- C3: in the ordered batch loop of `__send_vars`, if the writes before
position `i` succeed and the write at position `i` returns absent, exactly
`i + 1` writes are issued (none after `i`) and the operation reports
failure; in particular in the 2-element `movej` batch whose first write
fails, the `COM_ACTION` trigger is never attempted. -/
theorem C3_ordered_write_abort :
    (∀ (resp : Nat → Option (List Char)) (vs : List (List Char × List Char))
      (i : Nat), i < vs.length → (∀ j, j < i → (resp j).isSome = true) →
      resp i = none → send_vars resp vs = (false, i + 1))
    ∧ (∀ (resp : Nat → Option (List Char)) (q : List ℚ), resp 0 = none →
      send_vars resp (movej_vars q) = (false, 1)) := by
  constructor
  · intro resp vs i hi hpre hfail
    have h := send_vars_aux_abort resp vs 0 i none hi
      (fun j hj => by simpa using hpre j hj) (by simpa using hfail)
    simpa [send_vars] using h
  · intro resp q hfail
    have h := send_vars_aux_abort resp (movej_vars q) 0 0 none
      (by simp [movej_vars]) (fun j hj => absurd hj (Nat.not_lt_zero j))
      (by simpa using hfail)
    simpa [send_vars] using h

/-- C3 witness: a concrete 2-element batch whose first write fails issues
exactly one write and returns failure. -/
theorem C3_ordered_write_abort_witness :
    send_vars (fun _ => none) [(['a'], ['b']), (['c'], ['d'])] = (false, 1) :=
  C3_ordered_write_abort.1 (fun _ => none) [(['a'], ['b']), (['c'], ['d'])] 0
    (by decide) (fun j hj => absurd hj (Nat.not_lt_zero j)) rfl

/-- C4 counterexample: on exactly the reply text of the claim (six numbers,
no `S`/`T` status codes), `get_pose` does not return the pose — it raises
`IndexError` evaluating `numbers[6]` (outer `none`). -/
theorem C4_pose_parse_counterexample :
    get_pose (some claimText) = none
    ∧ get_pose (some claimText) ≠
        some (some [25 / 2, -3, 0, 0, 0, 0]) := by
  refine ⟨by decide, by decide⟩

/-- C4 amended: on the claim's text the number extractor does capture
exactly the six signed decimals whose first six values are
`[12.5, -3.0, 0.0, 0.0, 0.0, 0.0]`, but `get_pose` itself also reads
`numbers[6]` and `numbers[7]` as status integers and therefore raises on
that text; on a reply additionally carrying the status integers
(`", S 6, T 27"`), `get_pose` returns `[12.5, -3.0, 0.0, 0.0, 0.0, 0.0]`. -/
theorem C4_pose_parse_amended :
    findNumbers claimText =
      ["12.5000".data, "-3.0000".data, "0.0000".data, "0.0000".data,
       "0.0000".data, "0.0000".data]
    ∧ ((findNumbers claimText).take 6).mapM parseRat =
        some [25 / 2, -3, 0, 0, 0, 0]
    ∧ get_pose (some extendedText) = some (some [25 / 2, -3, 0, 0, 0, 0]) := by
  refine ⟨by decide, by decide, by decide⟩

/-- C5 counterexample: a 10-byte response whose declared `body_len` (999)
is inconsistent with the observed structure decodes without any error, and
`_read_rsp` even returns its value to a matching client — `body_len` is
never validated and no `ProtocolError` path exists. -/
theorem C5_body_len_not_checked :
    unpackRsp malformedRsp = some ⟨1, 999, 0, 0, [], 0, true⟩
    ∧ read_rsp 1 (some malformedRsp) = some (some [], 2) := by
  refine ⟨by decide, by decide⟩

/-- C5 amended: decode rejects exactly the payloads shorter than the
10-byte fixed overhead (7 header bytes plus 3 trailing bytes), raising a
`struct.error` so that no value is produced; every payload of at least 10
bytes decodes successfully, with no validation of the declared
`body_len`. -/
theorem C5_decode_bounds :
    (∀ p : List Nat, p.length < 10 → unpackRsp p = none)
    ∧ (∀ p : List Nat, 10 ≤ p.length → (unpackRsp p).isSome = true)
    ∧ (∀ (s : Nat) (p : List Nat), p.length < 10 →
        read_rsp s (some p) = none) := by
  refine ⟨fun p h => ?_, fun p h => ?_, fun s p h => ?_⟩
  · unfold unpackRsp; rw [if_neg (by omega)]
  · unfold unpackRsp; rw [if_pos h]; rfl
  · have hu : unpackRsp p = none := by unfold unpackRsp; rw [if_neg (by omega)]
    simp [read_rsp, hu]

/-- C5 witness: a 3-byte payload is rejected (and propagates as an error
out of `_read_rsp`), a 10-byte payload decodes. -/
theorem C5_decode_bounds_witness :
    unpackRsp [0, 0, 0] = none
    ∧ (unpackRsp (List.replicate 10 0)).isSome = true
    ∧ read_rsp 5 (some [0, 0, 0]) = none :=
  ⟨C5_decode_bounds.1 [0, 0, 0] (by decide),
   C5_decode_bounds.2.1 (List.replicate 10 0) (by decide),
   C5_decode_bounds.2.2 5 [0, 0, 0] (by decide)⟩

/-- C6: when the name (or value) byte length exceeds 65535, the encode
functions fail (`struct.error` on the 16-bit length field) and produce no
request bytes — nothing is handed to the socket. -/
theorem C6_oversize_encode_fails :
    (∀ (seq : Nat) (name : List Nat), 65535 < name.length →
      pack_read_req seq name = none)
    ∧ (∀ (seq : Nat) (name value : List Nat),
      65535 < name.length ∨ 65535 < value.length →
      pack_write_req seq name value = none) := by
  constructor
  · intro seq name h
    unfold pack_read_req; rw [if_neg (by omega)]
  · intro seq name value h
    unfold pack_write_req
    rcases h with h | h <;> rw [if_neg (by omega)]

/-- C6 witness: a 65536-byte name (and a 65536-byte value) make the encode
functions fail. -/
theorem C6_oversize_encode_fails_witness :
    pack_read_req 0 (List.replicate 65536 0) = none
    ∧ pack_write_req 0 [] (List.replicate 65536 0) = none :=
  ⟨C6_oversize_encode_fails.1 0 (List.replicate 65536 0)
     (by rw [List.length_replicate]; decide),
   C6_oversize_encode_fails.2 0 [] (List.replicate 65536 0)
     (Or.inr (by rw [List.length_replicate]; decide))⟩

/-- C7: for every joint vector with 1 to 12 elements, `joints_to_str`
emits exactly one labelled field per element — labels `A1..A6` then
`E1..E6` in order, values in 3-decimal fixed formatting, fields joined by
`", "`, with no padding for missing axes. -/
theorem C7_joint_formatting (q : List ℚ) (h1 : 1 ≤ q.length)
    (h2 : q.length ≤ 12) :
    joints_to_str q = joinComma (jointFields q)
    ∧ (jointFields q).length = q.length := by
  refine ⟨joints_eq q, ?_⟩
  simp [jointFields, jointLabels]
  omega

/-- C7 witness: the 3-element vector of the specification formats to
`"A1 1.000, A2 -2.500, A3 3.333"`. -/
theorem C7_joint_formatting_witness :
    (joints_to_str [1, -5 / 2, 3333 / 1000] =
        joinComma (jointFields [1, -5 / 2, 3333 / 1000])
      ∧ (jointFields [1, -5 / 2, 3333 / 1000]).length = 3)
    ∧ joints_to_str [1, -5 / 2, 3333 / 1000] =
        "A1 1.000, A2 -2.500, A3 3.333".data :=
  ⟨C7_joint_formatting [1, -5 / 2, 3333 / 1000] (by decide) (by decide),
   by decide⟩

/-- C8: the motion waiter's loop exits exactly at the first read whose
decoded value equals the idle sentinel `b"0"`, and if no read ever returns
`b"0"` it never exits — there is no timeout; the inter-read sleep is the
fixed 0.1 s. -/
theorem C8_motion_wait_loop :
    (∀ (reads : Nat → Option (List Char)) (n : Nat),
      reads n = some ['0'] → (∀ m, m < n → reads m ≠ some ['0']) →
      ∀ fuel, n < fuel → wait_motion reads fuel = some n)
    ∧ (∀ reads : Nat → Option (List Char),
      (∀ n, reads n ≠ some ['0']) → ∀ fuel, wait_motion reads fuel = none)
    ∧ sleep_seconds = 1 / 10 := by
  refine ⟨fun reads n hn hmin fuel hf => ?_, fun reads h fuel => ?_, rfl⟩
  · exact wait_motion_aux_exit reads fuel 0 n (Nat.zero_le n) (by omega) hn
      (fun m _ hm => hmin m hm)
  · exact wait_motion_aux_never reads h fuel 0

/-- C8 witness: with reads returning `b"1", b"1", b"0", ...`, the loop
exits at index 2. -/
theorem C8_motion_wait_loop_witness :
    wait_motion (fun i => if i = 2 then some ['0'] else some ['1']) 5 =
      some 2 :=
  C8_motion_wait_loop.1 (fun i => if i = 2 then some ['0'] else some ['1']) 2
    rfl (fun m hm => by interval_cases m <;> decide) 5 (by decide)

/-- C9 counterexample: when the underlying read yields absent, the speed
getters raise (`None.decode()` is an `AttributeError`) instead of
returning a failure indicator. -/
theorem C9_speed_getter_raises :
    get_cartesian_speed none = Except.error ()
    ∧ get_joint_speed none = Except.error () :=
  ⟨rfl, rfl⟩

/-- C9 amended: the pose/tool/joint getters degrade an absent read to a
returned `None`, and the batched setters degrade a failed write to a
returned `False`; but `get_cartesian_speed` and `get_joint_speed` raise an
exception on an absent read instead of returning an indicator. -/
theorem C9_failure_indicators :
    get_pose none = some none
    ∧ get_tool none = some none
    ∧ get_joints none = some none
    ∧ (∀ (resp : Nat → Option (List Char)) (v : ℚ), resp 0 = none →
        send_vars resp (set_cartesian_speed_vars v) = (false, 1))
    ∧ get_cartesian_speed none = Except.error ()
    ∧ get_joint_speed none = Except.error () := by
  refine ⟨rfl, rfl, rfl, fun resp v hfail => ?_, rfl, rfl⟩
  have h := send_vars_aux_abort resp (set_cartesian_speed_vars v) 0 0 none
    (by simp [set_cartesian_speed_vars])
    (fun j hj => absurd hj (Nat.not_lt_zero j)) (by simpa using hfail)
  simpa [send_vars] using h

/-- C9 witness: a concrete failed first write of `set_cartesian_speed`
returns failure after one issued write. -/
theorem C9_failure_indicators_witness :
    send_vars (fun _ => none) (set_cartesian_speed_vars 1) = (false, 1) :=
  C9_failure_indicators.2.2.2.1 (fun _ => none) 1 rfl

/-- C10: both text formatters are total on rational lists of any length,
truncate over-long input (`pose_to_str` to 6 fields, `joints_to_str` to
12), and yield the empty string on the empty list. -/
theorem C10_formatter_truncation :
    (∀ xyzrpy : List ℚ, pose_to_str xyzrpy = joinComma (poseFields xyzrpy)
      ∧ (poseFields xyzrpy).length = min 6 xyzrpy.length)
    ∧ (∀ q : List ℚ, joints_to_str q = joinComma (jointFields q)
      ∧ (jointFields q).length = min 12 q.length)
    ∧ pose_to_str [] = [] ∧ joints_to_str [] = [] := by
  refine ⟨fun x => ⟨rfl, ?_⟩, fun q => ⟨joints_eq q, ?_⟩, rfl, rfl⟩
  · simp [poseFields, poseLabels]
  · simp [jointFields, jointLabels]
